import Mathlib

/-!
Verification development for the radarzuyd monitoring dashboard client.

The definitions below are a shallow embedding of the client-side session,
polling, streaming and command-control code of the repository
(src/ui-service/src/components/DetectionList.tsx bundle: services/auth.ts,
services/jetson.ts; src/ui-service/src/services/aws-authenticated.ts;
src/unnamed/part_002: pages/LiveView.tsx).  JavaScript timestamps are
modelled as `Nat` milliseconds; numeric payload fields that the code only
copies (never computes with) are modelled as `Nat`; fallible operations
return explicit outcome values.  Browser storage (sessionStorage /
localStorage) is modelled as an explicit record of optional string cells.
-/

namespace Radar

/-- Substring test on character lists: `charsLeadWith pat text` holds when
`text` begins with `pat`.  Used to model JavaScript's
`String.prototype.includes`. -/
def charsLeadWith : List Char → List Char → Bool
  | [], _ => true
  | _ :: _, [] => false
  | p :: ps, c :: cs => p == c && charsLeadWith ps cs

/-- `charsOccur pat text` holds when `pat` occurs contiguously anywhere in
`text`. -/
def charsOccur (pat : List Char) : List Char → Bool
  | [] => charsLeadWith pat []
  | c :: cs => charsLeadWith pat (c :: cs) || charsOccur pat cs

/-- Model of JavaScript `s.includes(pat)` (substring containment). -/
def strIncludes (s pat : String) : Bool :=
  charsOccur pat.toList s.toList

/-! ## SessionStore: services/auth.ts

The token and username live in browser storage under the keys
`access_token` and `username`; both sessionStorage and localStorage are
consulted on read and cleared on logout. -/

/-- Browser storage state used by services/auth.ts: the `access_token` and
`username` cells of sessionStorage and localStorage.  `none` models a key
that is not set (JavaScript `null` from `getItem`). -/
structure Store where
  sessionToken : Option String
  localToken : Option String
  sessionUsername : Option String
  localUsername : Option String
deriving DecidableEq, Repr

/-- The store with nothing set (fresh browser context). -/
def store0 : Store := ⟨none, none, none, none⟩

/-- JavaScript `a || b` on `getItem` results: the first operand is returned
when it is truthy (a non-empty string); otherwise the second operand is
returned as-is. -/
def jsOrStr : Option String → Option String → Option String
  | some v, b => if v = "" then b else some v
  | none, b => b

/-- Model of `getToken()`:
`sessionStorage.getItem(TOKEN_KEY) || localStorage.getItem(TOKEN_KEY)`. -/
def getToken (s : Store) : Option String :=
  jsOrStr s.sessionToken s.localToken

/-- Model of `isAuthenticated()`: `getToken() !== null`. -/
def isAuthenticated (s : Store) : Bool :=
  (getToken s).isSome

/-- Model of `logout()`: removes the token and username keys from both
sessionStorage and localStorage. -/
def logout (_s : Store) : Store := store0

/-- Successful-login storage effect of `login()`:
`sessionStorage.setItem(TOKEN_KEY, data.access_token)` and
`sessionStorage.setItem(USERNAME_KEY, credentials.username)`. -/
def establish (token username : String) (s : Store) : Store :=
  { s with sessionToken := some token, sessionUsername := some username }

/-- A token read performed at wall-clock time `now`.  The source `getToken`
takes no time parameter and performs no writes, so the read ignores `now`
and returns the store unchanged; this wrapper only renders "a read at time
`now`" statable. -/
def getTokenAt (s : Store) (_now : Nat) : Option String × Store :=
  (getToken s, s)

/-- Error message thrown by `authenticatedFetch` when no token is stored. -/
def noTokenMsg : String := "No authentication token found. Please login."

/-- Error message thrown by `authenticatedFetch` on a 401 response. -/
def sessionExpiredMsg : String := "Session expired. Please login again."

/-! ## SessionGuard: authenticatedFetch (services/auth.ts) -/

/-- One detected object as rendered by the dashboard. -/
structure Detection where
  label : String
  confidence : Nat
deriving DecidableEq, Repr

/-- A single detection record from the DynamoDB `Items` array, restricted to
the fields `getLatestDetections` reads.  Optional fields model keys that may
be absent from the JSON. -/
structure DetectionRecord where
  timestamp : Nat
  fps : Option Nat
  detections : Option (List Detection)
  image_key : Option String
deriving DecidableEq, Repr

/-- Relevant content of a `fetch` `Response`: the HTTP status, the body as
error text (used on non-ok statuses), and the parsed `Items` array of the
JSON body (absent when the payload has no `Items` key). -/
structure HttpResponse where
  status : Nat
  errorText : String
  items : Option (List DetectionRecord)
deriving DecidableEq, Repr

/-- Whether `fetch`'s `Response.ok` holds: status in the range 200-299. -/
def respOk (r : HttpResponse) : Bool :=
  200 ≤ r.status && r.status < 300

/-- Outcome of the underlying `fetch` call: either the promise rejects with
a transport failure carrying message `msg`, or it resolves to a response. -/
inductive FetchOutcome where
  | networkFailure (msg : String)
  | response (r : HttpResponse)
deriving DecidableEq, Repr

/-- Result of `authenticatedFetch` as seen by its caller: either an
exception with the given message, or the HTTP response. -/
inductive AuthFetchResult where
  | thrown (msg : String)
  | response (r : HttpResponse)
deriving DecidableEq, Repr

/-- Model of `authenticatedFetch(url, options)` (services/auth.ts): reads the
token; with no token it throws `noTokenMsg` without calling the network; a
transport failure of `fetch` propagates untouched; a 401 response triggers
`logout()` and throws `sessionExpiredMsg`; any other response is returned.
The first component is the storage state after the call. -/
def authenticatedFetch (s : Store) (outcome : FetchOutcome) :
    Store × AuthFetchResult :=
  match getToken s with
  | none => (s, .thrown noTokenMsg)
  | some _ =>
    match outcome with
    | .networkFailure msg => (s, .thrown msg)
    | .response r =>
      if r.status = 401 then (logout s, .thrown sessionExpiredMsg)
      else (s, .response r)

/-! ## getLatestDetections (services/aws-authenticated.ts) -/

/-- The `LiveDetections` value delivered to the Live View. -/
structure LiveDetections where
  timestamp : Nat
  fps : Nat
  detections : List Detection
  image_key : Option String
deriving DecidableEq, Repr

/-- The fallback snapshot `getLatestDetections` resolves with on empty data
or a non-authentication error: current time, `fps: 0`, no detections. -/
def fallbackDetections (now : Nat) : LiveDetections :=
  { timestamp := now, fps := 0, detections := [], image_key := none }

/-- The message of the error thrown on a non-ok `/detections` response:
`AWS /detections failed: status statusText - errorText`. -/
def detFailMsg (r : HttpResponse) : String :=
  "AWS /detections failed: " ++ toString r.status ++ " - " ++ r.errorText

/-- Model of `getLatestDetections()` (services/aws-authenticated.ts): calls
`authenticatedFetch`; a non-ok response raises `detFailMsg`; the catch block
re-throws any error whose message contains "login" and otherwise resolves
with the fallback snapshot; with an ok response it resolves with the
fallback when `Items` is empty, else with the first item's fields
(`fps ?? 0`, `detections || []`).  `now` is the wall-clock time used for the
fallback timestamp.  The first component is the storage state after the
call. -/
def getLatestDetections (now : Nat) (s : Store) (outcome : FetchOutcome) :
    Store × Except String LiveDetections :=
  let res := authenticatedFetch s outcome
  match res.2 with
  | .thrown msg =>
    if strIncludes msg "login" then (res.1, .error msg)
    else (res.1, .ok (fallbackDetections now))
  | .response r =>
    if respOk r then
      match (r.items.getD []) with
      | [] => (res.1, .ok (fallbackDetections now))
      | latest :: _ =>
        (res.1, .ok { timestamp := latest.timestamp,
                      fps := latest.fps.getD 0,
                      detections := latest.detections.getD [],
                      image_key := latest.image_key })
    else
      if strIncludes (detFailMsg r) "login" then (res.1, .error (detFailMsg r))
      else (res.1, .ok (fallbackDetections now))

/-! ## DetectionPoller: startDetectionPolling (services/aws-authenticated.ts)

`startDetectionPolling(callback, intervalMs)` runs `poll()` once and then on
every interval tick; `poll()` awaits `getLatestDetections()` and passes the
result to the callback; on an error whose message contains "login" it clears
the interval.  The interval handle is modelled as the boolean `active`:
once cleared, no further tick runs. -/

/-- State of an active `startDetectionPolling` schedule: the browser storage
and whether the interval is still scheduled. -/
structure PollerState where
  store : Store
  active : Bool
deriving DecidableEq, Repr

/-- One run of `poll()` at time `now` with network outcome `outcome`: on a
successful fetch the callback receives the snapshot (second component); on
an error containing "login" the interval is cleared. -/
def pollTick (now : Nat) (outcome : FetchOutcome) (st : PollerState) :
    PollerState × Option LiveDetections :=
  let res := getLatestDetections now st.store outcome
  match res.2 with
  | .ok d => ({ st with store := res.1 }, some d)
  | .error msg =>
    (⟨res.1, st.active && !(strIncludes msg "login")⟩, none)

/-- Runs the interval over a list of scheduled ticks.  A tick fires (and so
dispatches a `getLatestDetections` request) only while the interval is still
scheduled; the second component counts the requests dispatched. -/
def runPoller : PollerState → List (Nat × FetchOutcome) → PollerState × Nat
  | st, [] => (st, 0)
  | st, (now, o) :: rest =>
    if st.active then
      let st' := (pollTick now o st).1
      let res := runPoller st' rest
      (res.1, res.2 + 1)
    else
      runPoller st rest

/-! ## LiveView detection refresh (pages/LiveView.tsx)

`refreshDetections` sets `detectionsLoading`, awaits `getLatestDetections`,
stores the result in `detData`, and finally clears `detectionsLoading`.  It
is split at its await point into a begin phase (synchronous prefix, which
dispatches the underlying request) and a settle phase (continuation).
`requestsIssued` is ghost instrumentation counting dispatched
`getLatestDetections` calls. -/

/-- LiveView component state relevant to detection fetching. -/
structure LiveState where
  detectionsLoading : Bool
  detData : LiveDetections
  requestsIssued : Nat
deriving DecidableEq, Repr

/-- Synchronous prefix of `refreshDetections()`: unconditionally sets
`detectionsLoading` and dispatches a `getLatestDetections` request — the
source performs no check of an already-outstanding fetch. -/
def refreshDetectionsBegin (s : LiveState) : LiveState :=
  { s with detectionsLoading := true,
           requestsIssued := s.requestsIssued + 1 }

/-- Continuation of `refreshDetections()` once its request settles: a
successful result is written to `detData` (`setDetData(latest)`), an error
is only logged; `finally` clears `detectionsLoading`. -/
def refreshDetectionsSettle (r : Except String LiveDetections)
    (s : LiveState) : LiveState :=
  match r with
  | .ok d => { s with detData := d, detectionsLoading := false }
  | .error _ => { s with detectionsLoading := false }

/-- Application of settled poll responses to `detData`, in arrival order:
both `refreshDetections` and the `startDetectionPolling` callback run
`setDetData(payload)` when their response settles, unconditionally.  Each
arrival is tagged with the dispatch index of the request it answers; the
source inspects no such tag, so the tag is ignored. -/
def applyArrivals (init : LiveDetections)
    (arrivals : List (Nat × LiveDetections)) : LiveDetections :=
  arrivals.foldl (fun _cur arr => arr.2) init

/-! ## StreamConnection: startStream (pages/LiveView.tsx)

`startStream` returns immediately when the state is already "connecting" or
"streaming"; otherwise it sets "connecting" and runs the negotiation chain
(`createOffer`, `setLocalDescription`, POST to the /offer endpoint,
`setRemoteDescription`).  A successful chain performs no state update; any
failure is caught and sets "error".  The `pc.ontrack` handler, once the
track's `video.play()` attempt settles (it sets "streaming" in both the
resolution and the rejection branch), and the video element's `onPlaying`
handler each set "streaming". -/

/-- The LiveView stream state enum. -/
inductive StreamState where
  | idle
  | connecting
  | streaming
  | error
deriving DecidableEq, Repr

/-- Events that mutate the stream state. -/
inductive StreamEvent where
  /-- A call of `startStream()` (its entry guard and first state write). -/
  | startCall
  /-- The awaited negotiation chain completed: the remote answer was
  received and `setRemoteDescription` succeeded. -/
  | negotiationSucceeded
  /-- Some step of the negotiation chain threw (caught by the catch
  block). -/
  | negotiationFailed
  /-- `pc.ontrack` fired (with the given availability of the video element
  and of `event.streams[0]`) and the `play()` attempt settled. -/
  | trackSettled (hasVideoEl hasStream : Bool)
  /-- The video element fired `onPlaying`. -/
  | videoPlaying
deriving DecidableEq, Repr

/-- The stream-state transition function of pages/LiveView.tsx. -/
def streamStep : StreamState → StreamEvent → StreamState
  | s, .startCall =>
    if s = .connecting ∨ s = .streaming then s else .connecting
  | s, .negotiationSucceeded => s
  | _, .negotiationFailed => .error
  | s, .trackSettled hasVideoEl hasStream =>
    if hasVideoEl && hasStream then .streaming else s
  | _, .videoPlaying => .streaming

/-! ## CommandDispatcher (pages/LiveView.tsx, services/jetson.ts)

The two control buttons are both rendered with
`disabled={controlLoading !== null}`, so a click while either command is
pending does nothing.  An accepted click runs `handleStopTracking` /
`handleMarkThreat`: clear `controlMsg`, set `controlLoading` to the command
kind, send the POST; on settlement set the outcome message and `finally`
clear `controlLoading`. -/

/-- The two command kinds (`controlLoading` values "stop" and "threat"). -/
inductive CommandKind where
  | stop
  | threat
deriving DecidableEq, Repr

/-- LiveView control state: the single pending-command cell, the outcome
message, and ghost instrumentation counting issued command requests. -/
structure ControlState where
  controlLoading : Option CommandKind
  controlMsg : String
  commandsSent : Nat
deriving DecidableEq, Repr

/-- A click on the command button for `k`: ignored while the buttons are
disabled (`controlLoading !== null`); otherwise the handler's synchronous
prefix runs and the command request is issued.  The boolean reports whether
a request was issued. -/
def dispatchCommand (k : CommandKind) (s : ControlState) :
    ControlState × Bool :=
  match s.controlLoading with
  | some _ => (s, false)
  | none =>
    ({ s with controlMsg := "",
              controlLoading := some k,
              commandsSent := s.commandsSent + 1 }, true)

/-- Outcome message written when the command request for `k` settles with
success (`ok = true`) or failure. -/
def commandOutcomeMsg : CommandKind → Bool → String
  | .stop, true => "Stop tracking command sent successfully."
  | .stop, false =>
    "Failed to send stop tracking command (Jetson API not reachable yet)."
  | .threat, true => "Mark as threat command sent successfully."
  | .threat, false =>
    "Failed to send mark threat command (Jetson API not reachable yet)."

/-- Continuation of the command handler once its request settles: writes the
outcome message and clears `controlLoading` (the `finally` block). -/
def settleCommand (k : CommandKind) (ok : Bool) (s : ControlState) :
    ControlState :=
  { s with controlMsg := commandOutcomeMsg k ok, controlLoading := none }

/-! ## UploadGate (edge reporting debounce) -/

/-- Modelled from the spec: the per-category debounce entry of the
UploadGate.  The implementing code (the camera detector's `seen_classes`
upload debounce) is not among the source files; only the edge README
describes it, so the data model follows spec section 3's GateEntry:
a category name and the time it was last reported. -/
structure GateEntry where
  category : String
  lastReportedAt : Nat
deriving DecidableEq, Repr

/-- Modelled from the spec: `shouldReport(category, now, cooldown)` of the
UploadGate, whose implementing code (camera detector upload debounce) is
missing from the sources.  Following spec section 4.5: if no GateEntry
exists for the category, create one with `lastReportedAt = now` and report;
if an entry exists and `now - lastReportedAt >= cooldown`, treat it as
expired — remove it and behave as the no-entry case (report and recreate);
otherwise suppress and leave the entry unchanged. -/
def shouldReport (category : String) (now cooldown : Nat)
    (entries : List GateEntry) : Bool × List GateEntry :=
  match entries.find? (fun e => e.category == category) with
  | none => (true, ⟨category, now⟩ :: entries)
  | some e =>
    if cooldown ≤ now - e.lastReportedAt then
      (true, ⟨category, now⟩ ::
        entries.filter (fun e2 => e2.category != category))
    else
      (false, entries)

/-- Modelled from the spec: the companion `observe(presentCategories, now,
cooldown)` of the UploadGate, whose implementing code is missing from the
sources.  Following spec section 4.5: invoked once per detection cycle, it
removes every GateEntry whose category is absent from `present` and whose
age exceeds `cooldown`. -/
def observe (present : List String) (now cooldown : Nat)
    (entries : List GateEntry) : List GateEntry :=
  entries.filter
    (fun e => present.contains e.category
      || decide (now - e.lastReportedAt ≤ cooldown))

/-! ## Helper lemmas -/

/-- A `startDetectionPolling` schedule whose interval has been cleared never
fires again: no request is dispatched by any later tick. -/
theorem runPoller_inactive (ticks : List (Nat × FetchOutcome))
    (st : PollerState) (h : st.active = false) :
    (runPoller st ticks).2 = 0 := by
  induction ticks with
  | nil => rfl
  | cons p rest ih =>
    obtain ⟨now, o⟩ := p
    simpa [runPoller, h] using ih

/-- Every error that escapes `getLatestDetections` has a message containing
"login": the catch block converts every other error into the fallback
snapshot. -/
theorem getLatestDetections_error_includes_login (now : Nat) (s : Store)
    (outcome : FetchOutcome) (msg : String)
    (h : (getLatestDetections now s outcome).2 = .error msg) :
    strIncludes msg "login" = true := by
  simp only [getLatestDetections] at h
  cases hres : (authenticatedFetch s outcome).2 with
  | thrown m =>
    rw [hres] at h
    simp only at h
    split at h <;> simp_all
  | response r2 =>
    rw [hres] at h
    simp only at h
    split at h
    · split at h <;> simp_all
    · split at h <;> simp_all

/-- On a 401 response with a token present, `authenticatedFetch` clears the
storage and throws the session-expired message. -/
theorem authenticatedFetch_401 (s : Store) (t : String)
    (ht : getToken s = some t) (r : HttpResponse) (h401 : r.status = 401) :
    authenticatedFetch s (.response r) = (store0, .thrown sessionExpiredMsg) := by
  simp [authenticatedFetch, ht, h401, logout]

/-! ## Claims -/

/-- C1 (counterexample).  The claim asserts that a token read performed at
or after the Session's `expiresAt` returns absent and clears the stored
Session.  Counterexample: store a token at time 0; with the documented
60-minute expiry, `expiresAt` is 3600000 ms; a read at 7200000 ms still
returns the token, leaves the store untouched, and `isAuthenticated` still
reports true — `getToken`/`isAuthenticated` consult no clock and no expiry
timestamp (none is even stored), and never clear anything. -/
theorem C1_counterexample :
    (getTokenAt (establish "tok" "alice" store0) 7200000).1 = some "tok"
    ∧ (getTokenAt (establish "tok" "alice" store0) 7200000).2
        = establish "tok" "alice" store0
    ∧ isAuthenticated (establish "tok" "alice" store0) = true := by
  refine ⟨?_, rfl, ?_⟩ <;> decide

/-- C1 (amended).  The token read (`getToken` / `isAuthenticated`) is
independent of the read time and has no side effect: it returns the stored
token at every time, and the stored Session is cleared only by `logout()`
(invoked explicitly, or by `authenticatedFetch` on a 401 response — lazy
expiry is delegated to the remote's rejection rather than checked against
a stored `expiresAt`). -/
theorem C1_amended_thm (s : Store) (n1 n2 : Nat) :
    (getTokenAt s n1).1 = (getTokenAt s n2).1
    ∧ (getTokenAt s n1).2 = s
    ∧ getToken (logout s) = none
    ∧ isAuthenticated (logout s) = false :=
  ⟨rfl, rfl, rfl, rfl⟩

/-- C2.  With a token present, a 401 response makes `authenticatedFetch`
clear the stored session and throw the session-expired error, which
propagates to the caller (here: `getLatestDetections` re-throws it); any
transport failure of the underlying `fetch` is surfaced as an error without
touching the stored session. -/
theorem C2_thm (s : Store) (t : String) (ht : getToken s = some t)
    (r : HttpResponse) (h401 : r.status = 401) (m : String) (now : Nat) :
    authenticatedFetch s (.response r) = (store0, .thrown sessionExpiredMsg)
    ∧ getToken (authenticatedFetch s (.response r)).1 = none
    ∧ (getLatestDetections now s (.response r)).2 = .error sessionExpiredMsg
    ∧ authenticatedFetch s (.networkFailure m) = (s, .thrown m) := by
  have hA := authenticatedFetch_401 s t ht r h401
  have hinc : strIncludes sessionExpiredMsg "login" = true := by decide
  refine ⟨hA, by rw [hA]; rfl, ?_, by simp [authenticatedFetch, ht]⟩
  simp [getLatestDetections, hA, hinc]

/-- C2 (witness): the theorem applied to a store holding token "tok", a 401
response and the transport-failure message "boom". -/
theorem C2_witness :
    authenticatedFetch (establish "tok" "alice" store0)
        (.response ⟨401, "", none⟩)
      = (store0, .thrown sessionExpiredMsg)
    ∧ getToken (authenticatedFetch (establish "tok" "alice" store0)
        (.response ⟨401, "", none⟩)).1 = none
    ∧ (getLatestDetections 5 (establish "tok" "alice" store0)
        (.response ⟨401, "", none⟩)).2 = .error sessionExpiredMsg
    ∧ authenticatedFetch (establish "tok" "alice" store0)
        (.networkFailure "boom") = (establish "tok" "alice" store0, .thrown "boom") :=
  C2_thm (establish "tok" "alice" store0) "tok" (by decide)
    ⟨401, "", none⟩ rfl "boom" 5

/-- C3.  A poll tick whose request is answered with 401 leaves the stored
session absent (`getToken` returns none) and clears the interval; once the
interval is cleared, no later scheduled tick dispatches any further
request. -/
theorem C3_thm (s : Store) (t : String) (ht : getToken s = some t)
    (r : HttpResponse) (h401 : r.status = 401) (now : Nat)
    (ticks : List (Nat × FetchOutcome)) :
    (pollTick now (.response r) ⟨s, true⟩).1 = ⟨store0, false⟩
    ∧ getToken (pollTick now (.response r) ⟨s, true⟩).1.store = none
    ∧ (runPoller (pollTick now (.response r) ⟨s, true⟩).1 ticks).2 = 0 := by
  have hA := authenticatedFetch_401 s t ht r h401
  have hinc : strIncludes sessionExpiredMsg "login" = true := by decide
  have hP : (pollTick now (.response r) ⟨s, true⟩).1 = ⟨store0, false⟩ := by
    simp [pollTick, getLatestDetections, hA, hinc]
  exact ⟨hP, by rw [hP]; rfl, by rw [hP]; exact runPoller_inactive ticks _ rfl⟩

/-- C3 (witness): the theorem applied to a store holding token "tok", a 401
response at time 7, and two further scheduled ticks. -/
theorem C3_witness :
    (pollTick 7 (.response ⟨401, "", none⟩)
        ⟨establish "tok" "alice" store0, true⟩).1 = ⟨store0, false⟩
    ∧ getToken (pollTick 7 (.response ⟨401, "", none⟩)
        ⟨establish "tok" "alice" store0, true⟩).1.store = none
    ∧ (runPoller (pollTick 7 (.response ⟨401, "", none⟩)
        ⟨establish "tok" "alice" store0, true⟩).1
        [(9, .response ⟨200, "", none⟩), (11, .networkFailure "x")]).2 = 0 :=
  C3_thm (establish "tok" "alice" store0) "tok" (by decide)
    ⟨401, "", none⟩ rfl 7
    [(9, .response ⟨200, "", none⟩), (11, .networkFailure "x")]

/-- Initial LiveView detection state: not loading, fallback data, no
requests issued yet. -/
def live0 : LiveState :=
  { detectionsLoading := false, detData := fallbackDetections 0,
    requestsIssued := 0 }

/-- C4 (counterexample).  The claim asserts single-flight behaviour: a
`fetchOnce` (here `refreshDetections`) issued while a prior fetch is still
outstanding must leave exactly one underlying request.  Counterexample:
after a first `refreshDetections` the fetch is outstanding
(`detectionsLoading` is set); a second `refreshDetections` issued at that
point results in two underlying requests, not one — the source checks no
in-flight state before dispatching. -/
theorem C4_counterexample :
    (refreshDetectionsBegin live0).detectionsLoading = true
    ∧ (refreshDetectionsBegin (refreshDetectionsBegin live0)).requestsIssued
        = 2 :=
  ⟨rfl, rfl⟩

/-- C4 (amended).  Every `refreshDetections` invocation unconditionally
dispatches its own underlying request — even while a prior fetch is still
outstanding — so n overlapping calls issue n requests; there is no
single-flight sharing of an in-flight result.  Overlap is only mitigated in
the UI by disabling the refresh toggle while `detectionsLoading` is set.
Each settlement clears the loading flag, and only a successful settlement
replaces `detData`. -/
theorem C4_amended_thm (s : LiveState) (r : Except String LiveDetections)
    (d : LiveDetections) (m : String) :
    (refreshDetectionsBegin s).requestsIssued = s.requestsIssued + 1
    ∧ (refreshDetectionsBegin s).detectionsLoading = true
    ∧ (refreshDetectionsSettle r s).detectionsLoading = false
    ∧ (refreshDetectionsSettle (.ok d) s).detData = d
    ∧ (refreshDetectionsSettle (.error m) s).detData = s.detData := by
  refine ⟨rfl, rfl, ?_, rfl, rfl⟩
  cases r <;> rfl

/-- Snapshot answered to the earlier of the two racing requests of the C5
counterexample. -/
def snapA : LiveDetections :=
  { timestamp := 100, fps := 5,
    detections := [{ label := "person", confidence := 94 }],
    image_key := none }

/-- Snapshot answered to the later of the two racing requests of the C5
counterexample. -/
def snapB : LiveDetections :=
  { timestamp := 200, fps := 7, detections := [], image_key := none }

/-- C5 (counterexample).  The claim asserts that a response belonging to a
request superseded by a newer fetch dispatched after it is discarded as
stale.  Counterexample: request 0 is dispatched, then request 1; request 1's
response `snapB` arrives first, then request 0's response `snapA` arrives.
The code applies every arrival with `setDetData`, so the final visible
snapshot is the stale `snapA` (distinct from `snapB`) instead of `snapB` —
the superseded response is applied, not discarded. -/
theorem C5_counterexample :
    applyArrivals (fallbackDetections 0) [(1, snapB), (0, snapA)] = snapA
    ∧ snapA ≠ snapB := by
  exact ⟨rfl, by decide⟩

/-- C5 (amended).  Poll results are applied to the visible snapshot in
response-arrival order, not dispatch order: each settling response
unconditionally overwrites `detData`, so after any non-empty sequence of
arrivals the visible snapshot is the last arrival's payload, whatever the
dispatch index of its request; no response is discarded as stale. -/
theorem C5_amended_thm (init : LiveDetections)
    (l : List (Nat × LiveDetections)) (x : Nat × LiveDetections) :
    applyArrivals init (l ++ [x]) = x.2 := by
  simp [applyArrivals, List.foldl_append]

/-- C6.  Every transition into Connecting starts from Idle or Error (in
particular never from Streaming) and is caused by the guarded `startStream`
call; a `startStream` call while already Connecting or Streaming is a
no-op. -/
theorem C6_thm (s : StreamState) (e : StreamEvent)
    (h1 : s ≠ StreamState.connecting)
    (h2 : streamStep s e = StreamState.connecting) :
    (s = StreamState.idle ∨ s = StreamState.error)
    ∧ s ≠ StreamState.streaming
    ∧ e = StreamEvent.startCall
    ∧ streamStep .streaming .startCall = .streaming
    ∧ streamStep .connecting .startCall = .connecting := by
  revert h1 h2
  cases e with
  | startCall => cases s <;> decide
  | negotiationSucceeded => cases s <;> decide
  | negotiationFailed => cases s <;> decide
  | videoPlaying => cases s <;> decide
  | trackSettled hv hs => cases hv <;> cases hs <;> cases s <;> decide

/-- C6 (witness): the theorem applied to the Idle state and the start
event, the one transition that does enter Connecting. -/
theorem C6_witness :
    (StreamState.idle = StreamState.idle ∨ StreamState.idle = StreamState.error)
    ∧ StreamState.idle ≠ StreamState.streaming
    ∧ StreamEvent.startCall = StreamEvent.startCall
    ∧ streamStep .streaming .startCall = .streaming
    ∧ streamStep .connecting .startCall = .connecting :=
  C6_thm .idle .startCall (by decide) rfl

/-- C7 (counterexample).  The claim asserts that receiving and applying a
compatible remote description transitions Connecting to Streaming.
Counterexample: start from Idle (entering Connecting) and let the whole
negotiation chain — including `setRemoteDescription` of the remote answer —
succeed: the state is still Connecting, not Streaming.  The code performs no
state write after the awaited chain; Streaming is entered only by the
`ontrack`/`onPlaying` media callbacks. -/
theorem C7_counterexample :
    streamStep (streamStep .idle .startCall) .negotiationSucceeded
      = StreamState.connecting
    ∧ StreamState.connecting ≠ StreamState.streaming := by
  decide

/-- C7 (amended).  Successful application of the remote description leaves
the state unchanged (still Connecting); the Connecting → Streaming
transition happens when the remote track event fires (with the video
element and a stream available) and the `play()` attempt settles, or when
the video element reports playback (`onPlaying`) — i.e. entry into
Streaming is tied to media-track delivery, not to signaling completion. -/
theorem C7_amended_thm (s : StreamState) :
    streamStep s .negotiationSucceeded = s
    ∧ streamStep .connecting (.trackSettled true true) = .streaming
    ∧ streamStep .connecting .videoPlaying = .streaming
    ∧ streamStep .connecting (.trackSettled false true) = .connecting := by
  refine ⟨?_, rfl, rfl, rfl⟩
  cases s <;> rfl

/-- C8.  `controlLoading` is a single optional cell, so at most one command
is pending at any time across both kinds; a click on either command button
while a command of either kind is pending is rejected without issuing a
request (the buttons are disabled by `controlLoading !== null`); settlement
of a command (success or failure) clears the pending cell and writes the
outcome message; a dispatch attempted immediately after settlement is
accepted and becomes the new pending command. -/
theorem C8_thm (s : ControlState) (k k2 : CommandKind) (ok : Bool) :
    (s.controlLoading = some k2 → dispatchCommand k s = (s, false))
    ∧ (settleCommand k ok s).controlLoading = none
    ∧ (settleCommand k ok s).controlMsg = commandOutcomeMsg k ok
    ∧ (dispatchCommand k (settleCommand k2 ok s)).2 = true
    ∧ (dispatchCommand k (settleCommand k2 ok s)).1.controlLoading = some k
    ∧ (s.controlLoading = none → (dispatchCommand k s).2 = true) := by
  refine ⟨?_, rfl, rfl, rfl, rfl, ?_⟩
  · intro h
    simp [dispatchCommand, h]
  · intro h
    simp [dispatchCommand, h]

/-- C8 (witness): the theorem applied to a state with a pending stop
command and a threat dispatch: the dispatch is rejected, settlement clears
the cell, and the post-settlement dispatch is accepted. -/
theorem C8_witness :
    dispatchCommand CommandKind.threat ⟨some CommandKind.stop, "", 1⟩
      = (⟨some CommandKind.stop, "", 1⟩, false)
    ∧ (settleCommand CommandKind.stop true
        ⟨some CommandKind.stop, "", 1⟩).controlLoading = none
    ∧ (dispatchCommand CommandKind.threat
        (settleCommand CommandKind.stop true
          ⟨some CommandKind.stop, "", 1⟩)).2 = true :=
  ⟨(C8_thm ⟨some .stop, "", 1⟩ .threat .stop true).1 rfl,
   (C8_thm ⟨some .stop, "", 1⟩ .threat .stop true).2.1,
   (C8_thm ⟨some .stop, "", 1⟩ .threat .stop true).2.2.2.1⟩

/-- Evaluation of `shouldReport` on a gate whose lookup for the category
finds an entry last reported at `tR`: report and refresh the entry when the
cooldown has elapsed, otherwise suppress. -/
theorem shouldReport_found (c : String) (now cd tR : Nat)
    (g : List GateEntry)
    (hfind : g.find? (fun e => e.category == c) = some ⟨c, tR⟩) :
    shouldReport c now cd g
      = if cd ≤ now - tR then
          (true, ⟨c, now⟩ :: g.filter (fun e2 => e2.category != c))
        else (false, g) := by
  unfold shouldReport
  rw [hfind]

/-- C9 (counterexample).  The claim asserts that after a first report,
`shouldReport` returns true again only after the category was observed
absent at least once in between.  Counterexample (category continuously
present, no absence ever observed, no `observe` call in the trace): first
call at t = 0 with cooldown 3000 reports; the next call at t = 3000 reports
again, because `shouldReport` treats the entry as expired on
`now - lastReportedAt >= cooldown` alone — absence is not consulted. -/
theorem C9_counterexample :
    (shouldReport "person" 0 3000 []).1 = true
    ∧ (shouldReport "person" 3000 3000
        (shouldReport "person" 0 3000 []).2).1 = true := by
  decide

/-- C9 (amended).  `shouldReport` reports on the first observation of a
category, suppresses every subsequent call made within the cooldown while
the category remains present, and reports again as soon as the cooldown has
elapsed — regardless of whether the category was observed absent in
between; absence only drives the companion `observe` removal of idle
entries. -/
theorem C9_amended_thm (c : String) (cd t0 t1 t2 : Nat)
    (hin : t1 - t0 < cd) (hout : cd ≤ t2 - t0) :
    (shouldReport c t0 cd []).1 = true
    ∧ shouldReport c t1 cd (shouldReport c t0 cd []).2
        = (false, (shouldReport c t0 cd []).2)
    ∧ (shouldReport c t2 cd (shouldReport c t0 cd []).2).1 = true := by
  have hfst : (shouldReport c t0 cd []).2 = [⟨c, t0⟩] := rfl
  have hfind : List.find? (fun e => e.category == c)
      [(⟨c, t0⟩ : GateEntry)] = some ⟨c, t0⟩ := by simp
  refine ⟨rfl, ?_, ?_⟩
  · rw [hfst, shouldReport_found c t1 cd t0 _ hfind, if_neg (by omega)]
  · rw [hfst, shouldReport_found c t2 cd t0 _ hfind, if_pos (by omega)]

/-- C9 (witness): the theorem applied to the spec's example trace —
category "person", cooldown 3000, calls at t = 0 (report), t = 1000
(suppressed) and t = 4000 (report again). -/
theorem C9_witness :
    (shouldReport "person" 0 3000 []).1 = true
    ∧ shouldReport "person" 1000 3000 (shouldReport "person" 0 3000 []).2
        = (false, (shouldReport "person" 0 3000 []).2)
    ∧ (shouldReport "person" 4000 3000
        (shouldReport "person" 0 3000 []).2).1 = true :=
  C9_amended_thm "person" 3000 0 1000 4000 (by decide) (by decide)

/-- C10.  With a token present: an ok `/detections` response whose `Items`
array is empty resolves to the fallback snapshot (`fps` 0, no detections);
a transport failure whose message does not contain "login" also resolves to
that fallback; an error raised from a non-ok, non-401 response (the
`detFailMsg` throw, e.g. an HTTP 500) whose message does not contain
"login" also resolves to that fallback; and — for every store and every
outcome — an error escapes `getLatestDetections` only when its message
contains "login" (the code's criterion for an authentication error). -/
theorem C10_thm (now : Nat) (s : Store) (t : String)
    (ht : getToken s = some t) (r : HttpResponse) (hok : respOk r = true)
    (hempty : r.items.getD [] = []) (m : String)
    (hm : strIncludes m "login" = false) (r2 : HttpResponse)
    (hok2 : respOk r2 = false) (hne2 : r2.status ≠ 401)
    (hm2 : strIncludes (detFailMsg r2) "login" = false) :
    (getLatestDetections now s (.response r)).2 = .ok (fallbackDetections now)
    ∧ (getLatestDetections now s (.networkFailure m)).2
        = .ok (fallbackDetections now)
    ∧ (getLatestDetections now s (.response r2)).2
        = .ok (fallbackDetections now)
    ∧ (∀ s2 o msg2, (getLatestDetections now s2 o).2 = .error msg2 →
        strIncludes msg2 "login" = true)
    ∧ (fallbackDetections now).fps = 0
    ∧ (fallbackDetections now).detections = [] := by
  have hne401 : ¬ r.status = 401 := by
    simp only [respOk, Bool.and_eq_true, decide_eq_true_eq] at hok
    omega
  have hAF : authenticatedFetch s (.response r) = (s, .response r) := by
    simp [authenticatedFetch, ht, hne401]
  have hAF2 : authenticatedFetch s (.networkFailure m) = (s, .thrown m) := by
    simp [authenticatedFetch, ht]
  have hAF3 : authenticatedFetch s (.response r2) = (s, .response r2) := by
    simp [authenticatedFetch, ht, hne2]
  refine ⟨?_, ?_, ?_, ?_, rfl, rfl⟩
  · simp [getLatestDetections, hAF, hok, hempty]
  · simp [getLatestDetections, hAF2, hm]
  · simp [getLatestDetections, hAF3, hok2, hm2]
  · intro s2 o msg2 h
    exact getLatestDetections_error_includes_login now s2 o msg2 h

/-- C10 (witness): the theorem applied to a store holding token "tok", an
ok response with no `Items`, the non-authentication failure message "boom",
and a non-ok HTTP 500 response whose raised message lacks "login". -/
theorem C10_witness :
    (getLatestDetections 5 (establish "tok" "alice" store0)
        (.response ⟨200, "", none⟩)).2 = .ok (fallbackDetections 5)
    ∧ (getLatestDetections 5 (establish "tok" "alice" store0)
        (.networkFailure "boom")).2 = .ok (fallbackDetections 5)
    ∧ (getLatestDetections 5 (establish "tok" "alice" store0)
        (.response ⟨500, "server error", none⟩)).2
        = .ok (fallbackDetections 5) :=
  ⟨(C10_thm 5 (establish "tok" "alice" store0) "tok" (by decide)
      ⟨200, "", none⟩ (by decide) rfl "boom" (by decide)
      ⟨500, "server error", none⟩ (by decide) (by decide) (by decide)).1,
   (C10_thm 5 (establish "tok" "alice" store0) "tok" (by decide)
      ⟨200, "", none⟩ (by decide) rfl "boom" (by decide)
      ⟨500, "server error", none⟩ (by decide) (by decide) (by decide)).2.1,
   (C10_thm 5 (establish "tok" "alice" store0) "tok" (by decide)
      ⟨200, "", none⟩ (by decide) rfl "boom" (by decide)
      ⟨500, "server error", none⟩ (by decide) (by decide) (by decide)).2.2.1⟩

end Radar
